import Mathlib

/-!
Verification of the uzh-microbiome-tutorial repository.

The repository consists of Jupyter notebooks (a read-processing notebook and
machine-learning notebooks) whose code cells invoke the external QIIME 2
command line (lines prefixed by `!`), IPython magics (lines prefixed by `%`),
or load/display data with pandas.  We embed every code cell verbatim as the
list of its source lines, and define the command structure (shell-continuation
joining, tokenization, `--i-*`/`--m-*-file` input arguments, `--o-*`,
`--output-dir`, `--output-path` output arguments) exactly as the q2cli
command lines are written in the cells.  All properties are then decided by
evaluation on this concrete data.
-/

namespace UzhMicrobiome

/-- The character with code point 32 (a space). -/
def spaceChar : Char := Char.ofNat 32

/-- `listStartsWith s p` holds when the character list `p` is an initial
segment of `s`. -/
def listStartsWith : List Char → List Char → Bool
  | _, [] => true
  | [], _ :: _ => false
  | a :: as, b :: bs => a == b && listStartsWith as bs

/-- String version of `listStartsWith`. -/
def strStarts (s p : String) : Bool := listStartsWith s.toList p.toList

/-- `strEnds s p` holds when `p` is a final segment of `s`. -/
def strEnds (s p : String) : Bool :=
  listStartsWith s.toList.reverse p.toList.reverse

/-- Drop leading spaces from a character list. -/
def dropSpaces : List Char → List Char
  | [] => []
  | c :: cs => if c == spaceChar then dropSpaces cs else c :: cs

/-- Split a character list on runs of spaces, accumulating the current token
in reverse. -/
def tokensAux : List Char → List Char → List String
  | [], acc => if acc.isEmpty then [] else [String.mk acc.reverse]
  | c :: cs, acc =>
    if c == spaceChar then
      if acc.isEmpty then tokensAux cs []
      else String.mk acc.reverse :: tokensAux cs []
    else tokensAux cs (c :: acc)

/-- The whitespace-separated tokens of a source line. -/
def tokens (l : String) : List String := tokensAux l.toList []

/-- Concatenate a list of lists. -/
def flatCat {α : Type} : List (List α) → List α
  | [] => []
  | l :: ls => l ++ flatCat ls

/-- Join source lines that are continued with a trailing backslash into
logical lines, as the shell does for the `!` commands in the cells. -/
def joinContinued : List String → List String
  | [] => []
  | l :: ls =>
    if strEnds l "\\" then
      match joinContinued ls with
      | [] => [String.mk l.toList.dropLast]
      | l2 :: rest => (String.mk l.toList.dropLast ++ " " ++ l2) :: rest
    else
      l :: joinContinued ls

/-- A shell-command line: in Colab these are the lines prefixed by `!`. -/
def isBangLine (l : String) : Bool := strStarts l "!"

/-- An IPython magic line (`%cd`, `%run`). -/
def isMagicLine (l : String) : Bool := strStarts l "%"

/-- A Python comment line. -/
def isCommentLine (l : String) : Bool := strStarts l "#"

/-- A line holding only whitespace. -/
def isBlankLine (l : String) : Bool := (dropSpaces l.toList).isEmpty

/-- The shell commands of one code cell: each logical `!` line, as its list
of tokens with the leading `!` removed. -/
def bangCommands (cell : List String) : List (List String) :=
  (joinContinued cell).filterMap (fun l =>
    match tokens l with
    | "!" :: rest => some rest
    | _ => none)

/-- All shell commands of a notebook (a list of code cells), in cell order. -/
def nbCommands (nb : List (List String)) : List (List String) :=
  flatCat (nb.map bangCommands)

/-- All logical source lines of a notebook's code cells, in order. -/
def nbLines (nb : List (List String)) : List String :=
  flatCat (nb.map joinContinued)

/-- The values of the command-line options whose flag satisfies `p`:
each token satisfying `p` that is followed by a token not starting in `--`
contributes that following token. -/
def optVals (p : String → Bool) : List String → List String
  | [] => []
  | a :: rest =>
    match rest with
    | [] => []
    | b :: _ =>
      if p a && !(strStarts b "--") then b :: optVals p rest
      else optVals p rest

/-- Input-artifact flags of a q2cli command: `--i-*` options and metadata
file options (`--m-...-file`). -/
def isInFlag (f : String) : Bool :=
  strStarts f "--i-" || (strStarts f "--m-" && strEnds f "-file")

/-- Output flags of a q2cli command: `--o-*`, `--output-dir`, `--output-path`. -/
def isOutFlag (f : String) : Bool :=
  strStarts f "--o-" || f == "--output-dir" || f == "--output-path"

/-- The input artifact paths a command consumes. -/
def inputPaths (c : List String) : List String := optVals isInFlag c

/-- The output paths a command declares it will write. -/
def outputPaths (c : List String) : List String := optVals isOutFlag c

/-- The last `/`-separated component of a URL. -/
def lastComponent (u : String) : String :=
  match (tokensAux (u.toList.map (fun ch => if ch == Char.ofNat 47 then spaceChar else ch)) []).reverse with
  | [] => ""
  | x :: _ => x

/-- The files a command downloads into the working directory: a `wget URL`
command downloads the file named by the URL's last path component. -/
def downloads (c : List String) : List String :=
  match c with
  | "wget" :: url :: _ => [lastComponent url]
  | _ => []

/-- `underDir d p` holds when path `p` lies inside directory `d`. -/
def underDir (d p : String) : Bool := strStarts p (d ++ "/")

/-- A path is provided by a command when it is exactly one of its declared
`--o-*`/`--output-path` outputs, lies under one of its declared output
directories, or is a file the command downloads. -/
def producedBy (c : List String) (p : String) : Bool :=
  (outputPaths c).any (fun o => o == p || underDir o p) || (downloads c).contains p

/-- A path names one of the input files shipped with the repository when it
lies under the `data/` directory. -/
def shippedData (p : String) : Bool := strStarts p "data/"

/-- Every input artifact of every command in the list is a shipped `data/`
file or is provided by one of the commands that come before it (the `earlier`
accumulator seeds the commands already issued). -/
def inputsCovered (earlier : List (List String)) : List (List String) → Bool
  | [] => true
  | c :: rest =>
    (inputPaths c).all (fun p => shippedData p || earlier.any (fun e => producedBy e p))
      && inputsCovered (earlier ++ [c]) rest

/-- A qiime command of the given plugin. -/
def hasPlugin (pl : String) (c : List String) : Bool :=
  c.head? == some "qiime" && c.get? 1 == some pl

/-- A qiime command of the given plugin and action. -/
def isQiimeCmd (pl ac : String) (c : List String) : Bool :=
  hasPlugin pl c && c.get? 2 == some ac

/-- In the command list, every command satisfying `p` occurs strictly before
every command satisfying `q`: once a `q`-command has been issued, no
`p`-command follows it. -/
def allBefore (p q : List String → Bool) : List (List String) → Bool
  | [] => true
  | c :: rest => (!(q c) || rest.all (fun d => !(p d))) && allBefore p q rest

/-- The data-import step (`qiime tools import`). -/
def isDataImportCmd : List String → Bool := isQiimeCmd "tools" "import"

/-- The quality-visualization step (`qiime demux summarize`). -/
def isQualityVizCmd : List String → Bool := isQiimeCmd "demux" "summarize"

/-- The denoising step (the `dada2` plugin). -/
def isDenoiseCmd : List String → Bool := hasPlugin "dada2"

/-- The phylogenetic-tree step (the `phylogeny` plugin). -/
def isPhyloCmd : List String → Bool := hasPlugin "phylogeny"

/-- The diversity-metric steps (the `diversity` plugin). -/
def isDiversityCmd : List String → Bool := hasPlugin "diversity"

/-- The taxonomic-classification step (the `feature-classifier` plugin). -/
def isTaxClassifyCmd : List String → Bool := hasPlugin "feature-classifier"

/-- The differential-abundance steps (the `composition` plugin). -/
def isDiffAbundCmd : List String → Bool := hasPlugin "composition"

/-- The supervised-learning steps (the `sample-classifier` plugin). -/
def isSupervisedCmd : List String → Bool := hasPlugin "sample-classifier"

/-- A `! qiime ...` logical line. -/
def isQiimeBang (l : String) : Bool :=
  match tokens l with
  | "!" :: "qiime" :: _ => true
  | _ => false

/-- No `! qiime` line occurs before the `%run setup_qiime2` bootstrap line. -/
def setupBeforeQiime : List String → Bool
  | [] => true
  | l :: rest =>
    if l == "%run setup_qiime2" then true
    else !(isQiimeBang l) && setupBeforeQiime rest

/-- A cell whose logical lines are all `!` commands, `%` magics, comments,
or blank. -/
def isCommandCell (cell : List String) : Bool :=
  (joinContinued cell).all (fun l =>
    isBangLine l || isMagicLine l || isCommentLine l || isBlankLine l)

/-- A cell consisting only of `import` statements. -/
def isImportCell (cell : List String) : Bool :=
  cell.all (fun l => strStarts l "import ") && !cell.isEmpty

/-- A cell that only displays a metadata file: a single `pd.read_csv(...)`
expression, with every following physical line an indented argument line of
that same expression. -/
def isReadCsvCell (cell : List String) : Bool :=
  (match cell.head? with
   | some l => strStarts l "pd.read_csv("
   | none => false)
  && cell.tail.all (fun l => strStarts l " ")

/-- The `--i-table` arguments a command receives. -/
def tableArgs (c : List String) : List String :=
  optVals (fun f => f == "--i-table") c

/-- Every `--i-table` argument of every command is the dada2 denoising
output `dada2/table.qza`, a shipped `data/` table, or a path provided by an
earlier command of the same notebook. -/
def tableChainOK (earlier : List (List String)) : List (List String) → Bool
  | [] => true
  | c :: rest =>
    (tableArgs c).all (fun t =>
      t == "dada2/table.qza" || shippedData t
        || earlier.any (fun e => producedBy e t))
      && tableChainOK (earlier ++ [c]) rest

/-- Python statement keywords that would introduce exception handling,
retries, or control flow conditioned on an outcome. -/
def pyControlKeywords : List String :=
  ["try:", "try", "except", "except:", "finally:", "finally", "if", "elif",
   "else:", "else", "while", "for", "raise", "assert", "with", "return"]

/-- Shell tokens that would chain, branch on, or inspect a command's exit
status. -/
def shellControlTokens : List String := ["&&", "||", ";", "$?", "exit", "trap"]

/-- No logical line of the notebook contains a shell control token, and no
line begins with a Python control-flow keyword. -/
def noFailureHandling (nb : List (List String)) : Bool :=
  (nbLines nb).all (fun l =>
    let ts := tokens l
    ts.all (fun t => !(shellControlTokens.contains t))
      && (match ts.head? with
          | some t => !(pyControlKeywords.contains t)
          | none => true))

/-- The `--p-random-state` arguments a command receives. -/
def randomStateVals (c : List String) : List String :=
  optVals (fun f => f == "--p-random-state") c

/-- The sample-classifier pipeline actions that train supervised-learning
models. -/
def trainerActions : List String :=
  ["classify-samples", "classify-samples-ncv", "regress-samples",
   "regress-samples-ncv"]

/-- The pre-trained taxonomic classifier artifact fetched from the QIIME 2
data server. -/
def classifierFile : String := "gg-13-8-99-515-806-nb-weighted-classifier.qza"

/-- A `wget` command. -/
def isWgetCmd (c : List String) : Bool := c.head? == some "wget"

/-- The code cells of the read-processing notebook (01_read_processing.ipynb), each cell as the verbatim list of its source lines. -/
def readProcessingCells : List (List String) := [
  [ "! git clone https://github.com/bokulich-lab/uzh-microbiome-tutorial.git materials",
    "! mkdir /content/prefetch_cache" ],
  [ "%cd materials" ],
  [ "%run setup_qiime2" ],
  [ "import numpy as np",
    "import pandas as pd",
    "import seaborn as sns" ],
  [ "! qiime tools import \\",
    "    --type \x27SampleData[SequencesWithQuality]\x27 \\",
    "    --input-path data/moving_pictures/moving_pictures_manifest.tsv \\",
    "    --output-path sequences.qza \\",
    "    --input-format SingleEndFastqManifestPhred33V2" ],
  [ "! qiime demux summarize \\",
    "    --i-data sequences.qza \\",
    "    --o-visualization qualities.qzv" ],
  [ "! qiime dada2 denoise-single \\",
    "    --i-demultiplexed-seqs sequences.qza \\",
    "    --p-trunc-len 135 \\",
    "    --p-n-threads 2 \\",
    "    --output-dir dada2" ],
  [ "# Optional",
    "! qiime metadata tabulate \\",
    "    --m-input-file dada2/denoising_stats.qza \\",
    "    --o-visualization dada2/denoising_stats.qzv" ],
  [ "! qiime feature-table summarize \\",
    "    --i-table dada2/table.qza \\",
    "    --m-sample-metadata-file data/moving_pictures/moving_pictures_metadata.tsv \\",
    "    --o-visualization dada2/table.qzv" ],
  [ "# Optional",
    "! qiime feature-table tabulate-seqs \\",
    "    --i-data dada2/representative_sequences.qza \\",
    "    --o-visualization dada2/representative_sequences.qzv" ],
  [ "! qiime phylogeny align-to-tree-mafft-fasttree \\",
    "    --i-sequences dada2/representative_sequences.qza \\",
    "    --output-dir phylogeny" ],
  [ "! qiime diversity core-metrics-phylogenetic \\",
    "    --i-phylogeny phylogeny/rooted_tree.qza \\",
    "    --i-table dada2/table.qza \\",
    "    --p-sampling-depth 1100 \\",
    "    --m-metadata-file data/moving_pictures/moving_pictures_metadata.tsv \\",
    "    --output-dir core-metrics-results" ],
  [ "! qiime diversity alpha-group-significance \\",
    "    --i-alpha-diversity core-metrics-results/faith_pd_vector.qza \\",
    "    --m-metadata-file data/moving_pictures/moving_pictures_metadata.tsv \\",
    "    --o-visualization core-metrics-results/faith_pd_group_significance.qzv" ],
  [ "# Optional",
    "! qiime diversity alpha-group-significance \\",
    "    --i-alpha-diversity core-metrics-results/evenness_vector.qza \\",
    "    --m-metadata-file data/moving_pictures/moving_pictures_metadata.tsv \\",
    "    --o-visualization core-metrics-results/evenness_group_significance.qzv" ],
  [ "! qiime emperor plot \\",
    "    --i-pcoa core-metrics-results/bray_curtis_pcoa_results.qza \\",
    "    --m-metadata-file data/moving_pictures/moving_pictures_metadata.tsv \\",
    "    --o-visualization core-metrics-results/bray_curtis_pcoa.qzv" ],
  [ "! wget https://data.qiime2.org/2023.9/common/gg-13-8-99-515-806-nb-weighted-classifier.qza" ],
  [ "! qiime feature-classifier classify-sklearn \\",
    "    --i-reads dada2/representative_sequences.qza \\",
    "    --i-classifier gg-13-8-99-515-806-nb-weighted-classifier.qza \\",
    "    --p-n-jobs 2 \\",
    "    --output-dir taxonomy" ],
  [ "! qiime metadata tabulate \\",
    "    --m-input-file taxonomy/classification.qza \\",
    "    --o-visualization taxonomy/classification.qzv" ],
  [ "! qiime taxa barplot \\",
    "    --i-table dada2/table.qza \\",
    "    --i-taxonomy taxonomy/classification.qza \\",
    "    --m-metadata-file data/moving_pictures/moving_pictures_metadata.tsv \\",
    "    --o-visualization taxonomy/taxa_barplot.qzv" ],
  [ "! mkdir diff_abund",
    "",
    "! qiime taxa collapse \\",
    "    --i-table dada2/table.qza \\",
    "    --i-taxonomy taxonomy/classification.qza \\",
    "    --p-level 6 \\",
    "    --o-collapsed-table diff_abund/table_l6.qza" ],
  [ "! qiime composition add-pseudocount \\",
    "    --i-table diff_abund/table_l6.qza \\",
    "    --o-composition-table diff_abund/comp_table_l6.qza" ],
  [ "! qiime feature-table filter-samples \\",
    "    --i-table diff_abund/comp_table_l6.qza \\",
    "    --m-metadata-file data/moving_pictures/moving_pictures_metadata.tsv \\",
    "    --p-where \"[body-site]=\x27gut\x27\" \\",
    "    --o-filtered-table diff_abund/comp_gut_table_l6.qza" ],
  [ "! qiime composition ancom \\",
    "    --i-table diff_abund/comp_gut_table_l6.qza \\",
    "    --m-metadata-file data/moving_pictures/moving_pictures_metadata.tsv \\",
    "    --m-metadata-column subject \\",
    "    --o-visualization diff_abund/ancom_gut_subject_l6.qzv" ]
]

/-- The code cells of the first machine-learning notebook document, each cell as the verbatim list of its source lines. -/
def mlCellsA : List (List String) := [
  [ "! git clone https://github.com/bokulich-lab/uzh-microbiome-tutorial.git materials",
    "! mkdir /content/prefetch_cache" ],
  [ "%cd materials" ],
  [ "%run setup_qiime2" ],
  [ "import numpy as np",
    "import pandas as pd",
    "import seaborn as sns" ],
  [ "! qiime sample-classifier classify-samples \\",
    "    --i-table data/table.qza \\",
    "    --m-metadata-file data/sample_metadata.qzv \\",
    "    --m-metadata-column body-site \\",
    "    --p-estimator RandomForestClassifier \\",
    "    --p-random-state 0 \\",
    "    --output-dir rf_classifier" ],
  [ "! qiime metadata tabulate \\",
    "    --m-input-file rf_classifier/predictions.qza \\",
    "    --o-visualization rf_classifier/predictions.qzv" ],
  [ "! qiime metadata tabulate \\",
    "    --m-input-file rf_classifier/probabilities.qza \\",
    "    --o-visualization rf_classifier/probabilities.qzv" ],
  [ "! qiime metadata tabulate \\",
    "    --m-input-file rf_classifier/test_targets.qza \\",
    "    --m-input-file rf_classifier/predictions.qza \\",
    "    --o-visualization rf_classifier/test_targets_predictions.qzv" ],
  [ "! qiime metadata tabulate \\",
    "    --m-input-file rf_classifier/feature_importance.qza \\",
    "    --o-visualization rf_classifier/feature_importance.qzv" ],
  [ "! qiime sample-classifier classify-samples \\",
    "    --i-table data/table.qza \\",
    "    --m-metadata-file data/sample_metadata.tsv \\",
    "    --m-metadata-column body-site \\",
    "    --p-optimize-feature-selection \\",
    "    --p-parameter-tuning \\",
    "    --p-estimator RandomForestClassifier \\",
    "    --p-n-estimators 20 \\",
    "    --p-random-state 123 \\",
    "    --output-dir rf_opt_classifier" ],
  [ "! qiime feature-table filter-features \\",
    "    --i-table data/table.qza \\",
    "    --m-metadata-file rf_opt_classifier/feature_importance.qza \\",
    "    --o-filtered-table rf_opt_classifier/important_feature_table.qza" ],
  [ "! qiime sample-classifier heatmap \\",
    "    --i-table data/table.qza \\",
    "    --i-importance rf_opt_classifier/feature_importance.qza \\",
    "    --m-sample-metadata-file data/sample_metadata.tsv \\",
    "    --m-sample-metadata-column body-site \\",
    "    --p-group-samples \\",
    "    --p-feature-count 30 \\",
    "    --o-filtered-table rf_opt_classifier/important_feature_table_top_30.qza \\",
    "    --o-heatmap rf_opt_classifier/important_feature_heatmap.qzv" ],
  [ "! qiime sample-classifier regress-samples \\",
    "    --i-table data/table.qza \\",
    "    --m-metadata-file data/sample_metadata.tsv \\",
    "    --m-metadata-column days-since-experiment-start \\",
    "    --output-dir mp_regressor \\",
    "    --verbose" ]
]

/-- The code cells of the second (main) machine-learning notebook document, each cell as the verbatim list of its source lines. -/
def mlCellsB : List (List String) := [
  [ "! git clone https://github.com/bokulich-lab/uzh-microbiome-tutorial.git materials",
    "! mkdir /content/prefetch_cache" ],
  [ "%cd materials" ],
  [ "%run setup_qiime2" ],
  [ "import numpy as np",
    "import pandas as pd",
    "import seaborn as sns" ],
  [ "pd.read_csv(\"data/moving_pictures/moving_pictures_metadata.tsv\",",
    "            sep=\"\\t\",",
    "            index_col=0,",
    "            skiprows=[1])" ],
  [ "! qiime sample-classifier classify-samples \\",
    "    --i-table data/moving_pictures/moving_pictures_table.qza \\",
    "    --m-metadata-file data/moving_pictures/moving_pictures_metadata.tsv \\",
    "    --m-metadata-column body-site \\",
    "    --p-estimator RandomForestClassifier \\",
    "    --p-random-state 123 \\",
    "    --output-dir rf_classifier" ],
  [ "! qiime metadata tabulate \\",
    "    --m-input-file rf_classifier/predictions.qza \\",
    "    --o-visualization rf_classifier/predictions.qzv" ],
  [ "! qiime metadata tabulate \\",
    "    --m-input-file rf_classifier/probabilities.qza \\",
    "    --o-visualization rf_classifier/probabilities.qzv" ],
  [ "! qiime metadata tabulate \\",
    "    --m-input-file rf_classifier/test_targets.qza \\",
    "    --m-input-file rf_classifier/predictions.qza \\",
    "    --o-visualization rf_classifier/test_targets_predictions.qzv" ],
  [ "! qiime metadata tabulate \\",
    "    --m-input-file rf_classifier/feature_importance.qza \\",
    "    --o-visualization rf_classifier/feature_importance.qzv" ],
  [ "! qiime sample-classifier classify-samples \\",
    "    --i-table data/moving_pictures/moving_pictures_table.qza \\",
    "    --m-metadata-file data/moving_pictures/moving_pictures_metadata.tsv \\",
    "    --m-metadata-column body-site \\",
    "    --p-optimize-feature-selection \\",
    "    --p-estimator RandomForestClassifier \\",
    "    --p-n-estimators 20 \\",
    "    --p-random-state 123 \\",
    "    --output-dir rf_opt_classifier" ],
  [ "! qiime metadata tabulate \\",
    "    --m-input-file rf_opt_classifier/feature_importance.qza \\",
    "    --o-visualization rf_opt_classifier/feature_importance.qzv" ],
  [ "# Optional",
    "! qiime feature-table filter-features \\",
    "    --i-table data/moving_pictures/moving_pictures_table.qza \\",
    "    --m-metadata-file rf_opt_classifier/feature_importance.qza \\",
    "    --o-filtered-table rf_opt_classifier/important_feature_table.qza" ],
  [ "! qiime sample-classifier heatmap \\",
    "    --i-table data/moving_pictures/moving_pictures_table.qza \\",
    "    --i-importance rf_opt_classifier/feature_importance.qza \\",
    "    --m-sample-metadata-file data/moving_pictures/moving_pictures_metadata.tsv \\",
    "    --m-sample-metadata-column body-site \\",
    "    --p-group-samples \\",
    "    --p-feature-count 30 \\",
    "    --o-filtered-table rf_opt_classifier/important_feature_table_top_30.qza \\",
    "    --o-heatmap rf_opt_classifier/important_feature_heatmap.qzv" ],
  [ "! qiime sample-classifier regress-samples \\",
    "    --i-table data/moving_pictures/moving_pictures_table.qza \\",
    "    --m-metadata-file data/moving_pictures/moving_pictures_metadata.tsv \\",
    "    --m-metadata-column days-since-experiment-start \\",
    "    --p-estimator RandomForestRegressor \\",
    "    --output-dir mp_regressor" ],
  [ "pd.read_csv(\"data/ecam/ecam_metadata.tsv\",",
    "            sep=\"\\t\",",
    "            index_col=0,",
    "            skiprows=[1])" ],
  [ "! qiime sample-classifier regress-samples \\",
    "    --i-table data/ecam/ecam_table.qza \\",
    "    --m-metadata-file data/ecam/ecam_metadata.tsv \\",
    "    --m-metadata-column month \\",
    "    --p-estimator RandomForestRegressor \\",
    "    --output-dir ecam_regressor" ],
  [ "! qiime sample-classifier classify-samples-ncv \\",
    "    --i-table data/moving_pictures/moving_pictures_table.qza \\",
    "    --m-metadata-file data/moving_pictures/moving_pictures_metadata.tsv \\",
    "    --m-metadata-column body-site \\",
    "    --p-estimator RandomForestClassifier \\",
    "    --p-random-state 123 \\",
    "    --output-dir moving_pictures_ncv" ],
  [ "! qiime sample-classifier confusion-matrix \\",
    "    --i-predictions moving_pictures_ncv/predictions.qza \\",
    "    --i-probabilities moving_pictures_ncv/probabilities.qza \\",
    "    --m-truth-file data/moving_pictures/moving_pictures_metadata.tsv \\",
    "    --m-truth-column body-site \\",
    "    --o-visualization moving_pictures_ncv/ncv_confusion_matrix.qzv" ],
  [ "! qiime sample-classifier regress-samples-ncv \\",
    "    --i-table data/ecam/ecam_table.qza \\",
    "    --m-metadata-file data/ecam/ecam_metadata.tsv \\",
    "    --m-metadata-column month \\",
    "    --p-estimator RandomForestRegressor \\",
    "    --p-random-state 123 \\",
    "    --output-dir ecam_ncv" ],
  [ "! qiime sample-classifier scatterplot \\",
    "    --i-predictions ecam_ncv/predictions.qza \\",
    "    --m-truth-file data/ecam/ecam_metadata.tsv \\",
    "    --m-truth-column month \\",
    "    --o-visualization ecam_ncv/ecam_scatterplot.qzv" ]
]


/-- The shell commands of the read-processing notebook, in order. -/
def rpCmds : List (List String) := nbCommands readProcessingCells

/-- The shell commands of the first machine-learning notebook, in order. -/
def mlACmds : List (List String) := nbCommands mlCellsA

/-- The shell commands of the second machine-learning notebook, in order. -/
def mlBCmds : List (List String) := nbCommands mlCellsB

/-- The shell commands of the machine-learning notebooks, in order. -/
def mlCmds : List (List String) := mlACmds ++ mlBCmds

/-- All shell commands of the repository in notebook order: the
read-processing notebook first, then the machine-learning notebooks. -/
def globalCmds : List (List String) := rpCmds ++ mlCmds

/-- All code cells of the repository's notebooks. -/
def allCells : List (List String) :=
  readProcessingCells ++ mlCellsA ++ mlCellsB

/-- Claim C1: within the read-processing notebook the data-import command
precedes the quality-visualization command, which precedes denoising, then
phylogenetic-tree construction, then the diversity-metric commands, then
taxonomic classification, then the differential-abundance commands; and every
supervised-learning (sample-classifier) command appears only in the
machine-learning notebooks, after all of those in the notebook order. -/
theorem C1_pipeline_step_order :
    (rpCmds.any isDataImportCmd = true ∧ rpCmds.any isQualityVizCmd = true
      ∧ rpCmds.any isDenoiseCmd = true ∧ rpCmds.any isPhyloCmd = true
      ∧ rpCmds.any isDiversityCmd = true ∧ rpCmds.any isTaxClassifyCmd = true
      ∧ rpCmds.any isDiffAbundCmd = true)
    ∧ (allBefore isDataImportCmd isQualityVizCmd rpCmds = true
      ∧ allBefore isQualityVizCmd isDenoiseCmd rpCmds = true
      ∧ allBefore isDenoiseCmd isPhyloCmd rpCmds = true
      ∧ allBefore isPhyloCmd isDiversityCmd rpCmds = true
      ∧ allBefore isDiversityCmd isTaxClassifyCmd rpCmds = true
      ∧ allBefore isTaxClassifyCmd isDiffAbundCmd rpCmds = true)
    ∧ (rpCmds.all (fun c => !(isSupervisedCmd c)) = true
      ∧ mlACmds.any isSupervisedCmd = true ∧ mlBCmds.any isSupervisedCmd = true
      ∧ allBefore isDataImportCmd isSupervisedCmd globalCmds = true
      ∧ allBefore isQualityVizCmd isSupervisedCmd globalCmds = true
      ∧ allBefore isDenoiseCmd isSupervisedCmd globalCmds = true
      ∧ allBefore isPhyloCmd isSupervisedCmd globalCmds = true
      ∧ allBefore isDiversityCmd isSupervisedCmd globalCmds = true
      ∧ allBefore isTaxClassifyCmd isSupervisedCmd globalCmds = true
      ∧ allBefore isDiffAbundCmd isSupervisedCmd globalCmds = true) := by
  decide

/-- Claim C2: every input artifact argument (`--i-*` or `--m-...-file`) of
every command of each notebook is a file shipped under `data/`, a file
downloaded by an earlier cell, or a path declared as an output (`--o-*`,
`--output-path`, or a file inside a declared `--output-dir`) by an earlier
command of the same notebook; and the notebooks do have input arguments,
so the chaining is not vacuous. -/
theorem C2_inputs_chained :
    inputsCovered [] rpCmds = true
    ∧ inputsCovered [] mlACmds = true
    ∧ inputsCovered [] mlBCmds = true
    ∧ globalCmds.any (fun c => !(inputPaths c).isEmpty) = true := by
  decide

/-- Claim C3 is false as stated: the `qiime composition add-pseudocount`
command (command 19 of the read-processing notebook) consumes the collapsed
table `diff_abund/table_l6.qza`, not the dada2 denoising output
`dada2/table.qza`; hence not every `--i-table` argument in the notebooks is
the dada2 output (the machine-learning notebooks likewise pass shipped
`data/` tables). -/
theorem C3_counterexample :
    tableArgs (rpCmds.getD 19 []) = ["diff_abund/table_l6.qza"]
    ∧ ¬ (globalCmds.all
          (fun c => (tableArgs c).all (fun t => t == "dada2/table.qza")) = true) := by
  decide

/-- Claim C3 as amended: in the read-processing notebook every `--i-table`
argument is either the dada2 denoising output `dada2/table.qza` or a table
produced from it by an earlier command of the same notebook; in the
machine-learning notebooks every `--i-table` argument is a pre-computed
feature table shipped under `data/`. -/
theorem C3_amended_tables_chained :
    tableChainOK [] rpCmds = true
    ∧ rpCmds.any (fun c => (tableArgs c).contains "dada2/table.qza") = true
    ∧ mlCmds.all (fun c => (tableArgs c).all shippedData) = true := by
  decide

/-- Claim C4: every code cell of every notebook either only issues external
commands (all its logical lines are `!` commands, `%` magics, comments, or
blank) or only loads/displays data (an all-`import` cell or a single
`pd.read_csv(...)` expression); no cell implements a computational step in
Python.  Both non-command cell kinds actually occur. -/
theorem C4_cells_only_delegate :
    allCells.all
      (fun cell => isCommandCell cell || isImportCell cell || isReadCsvCell cell) = true
    ∧ allCells.any isImportCell = true
    ∧ allCells.any isReadCsvCell = true := by
  decide

/-- Claim C5: the taxonomic classifier artifact is downloaded pre-built by a
`wget` cell of the read-processing notebook; every wget precedes the
`classify-sklearn` command; that command's `--i-classifier` argument is
exactly the downloaded file; and no command in the repository trains a
taxonomic classifier (the only `feature-classifier` action invoked anywhere
is `classify-sklearn`, never a `fit-*` action). -/
theorem C5_pretrained_classifier :
    rpCmds.any (fun c => isWgetCmd c && (downloads c).contains classifierFile) = true
    ∧ rpCmds.any (fun c => isQiimeCmd "feature-classifier" "classify-sklearn" c) = true
    ∧ rpCmds.all (fun c => !(isQiimeCmd "feature-classifier" "classify-sklearn" c)
        || optVals (fun f => f == "--i-classifier") c == [classifierFile]) = true
    ∧ allBefore isWgetCmd (isQiimeCmd "feature-classifier" "classify-sklearn") rpCmds = true
    ∧ globalCmds.all
        (fun c => !(isTaxClassifyCmd c && !(c.get? 2 == some "classify-sklearn"))) = true := by
  decide

/-- Claim C6: in every notebook the `%run setup_qiime2` bootstrap line comes
before every `! qiime` command line; each notebook does contain the bootstrap
line and qiime command lines. -/
theorem C6_setup_precedes_qiime :
    (setupBeforeQiime (nbLines readProcessingCells) = true
      ∧ (nbLines readProcessingCells).any (fun l => l == "%run setup_qiime2") = true
      ∧ (nbLines readProcessingCells).any isQiimeBang = true)
    ∧ (setupBeforeQiime (nbLines mlCellsA) = true
      ∧ (nbLines mlCellsA).any (fun l => l == "%run setup_qiime2") = true
      ∧ (nbLines mlCellsA).any isQiimeBang = true)
    ∧ (setupBeforeQiime (nbLines mlCellsB) = true
      ∧ (nbLines mlCellsB).any (fun l => l == "%run setup_qiime2") = true
      ∧ (nbLines mlCellsB).any isQiimeBang = true) := by
  decide

/-- Claim C7: the notebooks contain no failure-handling logic: no logical
source line of any code cell contains a shell control token (`&&`, `||`,
`;`, exit-status inspection) and no line begins with a Python control-flow
or exception keyword, so the sequence of commands a notebook issues does not
depend on any command's outcome. -/
theorem C7_no_failure_handling :
    noFailureHandling readProcessingCells = true
    ∧ noFailureHandling mlCellsA = true
    ∧ noFailureHandling mlCellsB = true := by
  decide

/-- Claim C8: no output argument (`--o-*`, `--output-dir`, `--output-path`)
of any command in any notebook names a path under the shipped `data/`
directory (nor `data/` itself), so a complete run leaves the shipped input
files untouched; the commands do declare outputs, so this is not vacuous. -/
theorem C8_no_writes_under_data :
    globalCmds.all
      (fun c => (outputPaths c).all (fun o => !(shippedData o) && !(o == "data"))) = true
    ∧ globalCmds.any (fun c => !(outputPaths c).isEmpty) = true := by
  decide

/-- Claim C9: the machine-learning notebooks are independent of the
read-processing notebook: every input artifact they consume is shipped under
`data/` or produced by an earlier command of the same machine-learning
notebook (the chaining check is seeded with no foreign outputs), and no
input path lies under the read-processing notebook's `dada2/` output
directory. -/
theorem C9_ml_notebook_independent :
    inputsCovered [] mlACmds = true
    ∧ inputsCovered [] mlBCmds = true
    ∧ mlCmds.all (fun c => (inputPaths c).all (fun p => !(strStarts p "dada2/"))) = true := by
  decide

/-- Claim C10: every `classify-samples`, `classify-samples-ncv`, and
`regress-samples-ncv` invocation in the machine-learning notebooks passes an
explicit `--p-random-state` of 0 or 123; every plain `regress-samples`
invocation passes none; among the four model-training pipeline actions, the
only ones issued without a fixed seed are the `regress-samples` calls; and
all four pipeline actions are actually invoked. -/
theorem C10_fixed_random_seeds :
    mlCmds.all (fun c => !(isSupervisedCmd c
        && ["classify-samples", "classify-samples-ncv", "regress-samples-ncv"].any
            (fun a => c.get? 2 == some a))
      || (randomStateVals c == ["0"] || randomStateVals c == ["123"])) = true
    ∧ mlCmds.all (fun c => !(isQiimeCmd "sample-classifier" "regress-samples" c)
        || randomStateVals c == []) = true
    ∧ mlCmds.all (fun c => !(isSupervisedCmd c
        && trainerActions.any (fun a => c.get? 2 == some a)
        && randomStateVals c == [])
      || c.get? 2 == some "regress-samples") = true
    ∧ trainerActions.all
        (fun a => mlCmds.any (fun c => isQiimeCmd "sample-classifier" a c)) = true := by
  decide

end UzhMicrobiome
